import Mathlib

/-
Verification development for the Delivery Performance Dashboard transform and
metrics pipeline (src/transform.py, src/metrics.py, src/data_load.py).

Modelling conventions:
- A pandas DataFrame is a list of typed rows; a nullable cell is an Option.
- Floating point numbers (payment values, freight, coordinates) are modelled
  as rationals; datetimes are integers (timestamps at day granularity).
- A raw CSV datetime cell that transform.py runs through
  pd.to_datetime(errors="coerce") is modelled directly as its parse result
  (Option Int: none = missing or unparseable), since the raw string is never
  used elsewhere.  The purchase timestamp is kept raw (TsVal below) because
  metrics.apply_filters parses it later: pd.to_datetime is then modelled as an
  explicit parse function argument (String to Option Int).
- pandas merge(how="left") keeps every left row, emits one output row per
  matching right row, and fills null on no match: leftMerge below.
- pandas groupby(sort=True) groups by key, dropping no rows for non-null
  keys, and sorts the distinct keys: groupApply below.
- Series.mode() drops nulls and returns the most frequent values in sorted
  order: series_mode below.
-/

/-- Raw value of the order_purchase_timestamp column: a CSV string, an already
parsed timestamp, or null.  metrics.apply_filters converts str cells via
pd.to_datetime(errors="coerce"). -/
inductive TsVal : Type where
  | str (s : String)
  | ts (t : Int)
  | null
deriving DecidableEq

/-- One row of olist_orders_dataset.csv, restricted to the columns the
pipeline reads.  The two delivery-date cells are modelled as their
pd.to_datetime(errors="coerce") parse result. -/
structure OrderRow where
  order_id : String
  customer_id : String
  order_status : String
  order_purchase_timestamp : TsVal
  order_delivered_customer_date : Option Int
  order_estimated_delivery_date : Option Int
deriving DecidableEq

/-- One row of olist_customers_dataset.csv (columns used by the pipeline).
The zip column is named customer_zip_code here. -/
structure CustomerRow where
  customer_id : String
  customer_zip_code : Int
  customer_state : Option String
deriving DecidableEq

/-- One row of olist_geolocation_dataset.csv (columns used by the pipeline).
The zip column is named geolocation_zip_code here. -/
structure GeolocationRow where
  geolocation_zip_code : Int
  geolocation_lat : Option ℚ
  geolocation_lng : Option ℚ
deriving DecidableEq

/-- One row of olist_order_payments_dataset.csv (columns used). -/
structure PaymentRow where
  order_id : String
  payment_type : Option String
  payment_value : Option ℚ
deriving DecidableEq

/-- One row of olist_order_items_dataset.csv (columns used). -/
structure ItemRow where
  order_id : String
  product_id : String
  freight_value : Option ℚ
deriving DecidableEq

/-- One row of olist_products_dataset.csv (columns used). -/
structure ProductRow where
  product_id : String
  product_category_name : Option String
deriving DecidableEq

/-- One row of product_category_name_translation.csv. -/
structure TranslationRow where
  product_category_name : String
  product_category_name_english : Option String
deriving DecidableEq

/-- A row of the fact table built by build_fact_orders.  Fields not yet
joined hold none. -/
structure FactRow where
  order_id : String
  customer_id : String
  order_status : String
  order_purchase_timestamp : TsVal
  order_delivered_customer_date : Option Int
  order_estimated_delivery_date : Option Int
  customer_zip_code : Option Int
  customer_state : Option String
  mean_lat : Option ℚ
  mean_lng : Option ℚ
  payment_type_mode : Option String
  payment_value_sum : Option ℚ
  freight_value_sum : Option ℚ
  product_category_mode : Option String
  delay_days : Option Int
  on_time : Option Bool
deriving DecidableEq

/-- Intermediate row of items_with_product: order_items left-joined to
products and to the category translation table. -/
structure ItemJoined where
  order_id : String
  product_id : String
  freight_value : Option ℚ
  product_category_name : Option String
  product_category_name_english : Option String
deriving DecidableEq

/-- pandas merge(how="left"): every left row survives; one output row per
matching right row, or a single row combined with none when nothing
matches. -/
def leftMerge {α β γ : Type} (L : List α) (R : List β) (p : α → β → Bool)
    (c : α → Option β → γ) : List γ :=
  match L with
  | [] => []
  | a :: rest =>
    (match R.filter (p a) with
     | [] => [c a none]
     | b :: bs => (b :: bs).map (fun x => c a (some x))) ++ leftMerge rest R p c

/-- pandas groupby(sort=True).agg: one output row per distinct key, keys in
ascending order, each group holding the matching rows in input order. -/
def groupApply {β κ γ : Type} [LinearOrder κ] [DecidableEq κ] (rows : List β) (key : β → κ)
    (f : List β → γ) : List (κ × γ) :=
  (List.insertionSort (fun a b => a ≤ b) ((rows.map key).dedup)).map
    (fun k => (k, f (rows.filter (fun b => decide (key b = k)))))

/-- Mean of a numeric pandas Series: nulls are skipped, and the mean of an
all-null or empty series is null. -/
def meanOpt (l : List (Option ℚ)) : Option ℚ :=
  let v := l.filterMap id
  if v = [] then none else some (v.sum / (v.length : ℚ))

/-- pandas Series.mode(): drop nulls, return all values of maximal frequency
in ascending sorted order. -/
def series_mode (l : List String) : List String :=
  let uniq := l.dedup
  let maxCount := (uniq.map (fun v => l.count v)).foldr max 0
  List.insertionSort (fun a b => a ≤ b)
    (uniq.filter (fun v => decide (l.count v = maxCount)))

/-- transform.py _mode_or_first (also the identical inline payment lambda):
mode_vals.iloc[0] if len(mode_vals) > 0 else None, over a nullable column. -/
def _mode_or_first (vals : List (Option String)) : Option String :=
  (series_mode (vals.filterMap id)).head?

/-- The seven source tables returned by load_required_from_raw. -/
structure Tables where
  orders : List OrderRow
  customers : List CustomerRow
  order_items : List ItemRow
  order_payments : List PaymentRow
  products : List ProductRow
  product_category_translation : List TranslationRow
  geolocation : List GeolocationRow
deriving DecidableEq

/-- transform.py: geo lookup, zip -> (mean lat, mean lng), one row per
distinct zip present in the geolocation table. -/
def geo_lookup (geolocation : List GeolocationRow) :
    List (Int × (Option ℚ × Option ℚ)) :=
  groupApply geolocation (fun g => g.geolocation_zip_code)
    (fun grp => (meanOpt (grp.map (fun g => g.geolocation_lat)),
                 meanOpt (grp.map (fun g => g.geolocation_lng))))

/-- A fresh fact row made from an orders row, all joined fields null. -/
def mk_fact_row (o : OrderRow) : FactRow :=
  ⟨o.order_id, o.customer_id, o.order_status, o.order_purchase_timestamp,
   o.order_delivered_customer_date, o.order_estimated_delivery_date,
   none, none, none, none, none, none, none, none, none, none⟩

/-- df = orders.merge(customers, on="customer_id", how="left"). -/
def fact_stage1 (t : Tables) : List FactRow :=
  leftMerge t.orders t.customers
    (fun o c => decide (c.customer_id = o.customer_id))
    (fun o ob =>
      { mk_fact_row o with
          customer_zip_code := ob.map (fun c => c.customer_zip_code),
          customer_state := ob.bind (fun c => c.customer_state) })

/-- df = df.merge(geo_lookup, on="customer_zip_code_prefix", how="left").
The null zip of an order without customer match joins nothing. -/
def fact_stage2 (t : Tables) : List FactRow :=
  leftMerge (fact_stage1 t) (geo_lookup t.geolocation)
    (fun r g => decide ((some g.1 : Option Int) = r.customer_zip_code))
    (fun r ob =>
      { r with mean_lat := ob.bind (fun g => g.2.1),
               mean_lng := ob.bind (fun g => g.2.2) })

/-- order_payments.groupby("order_id")["payment_type"].agg(mode lambda). -/
def payment_mode (order_payments : List PaymentRow) :
    List (String × Option String) :=
  groupApply order_payments (fun pr => pr.order_id)
    (fun grp => _mode_or_first (grp.map (fun pr => pr.payment_type)))

/-- order_payments.groupby("order_id")["payment_value"].sum(): nulls count
as zero, an all-null group sums to zero. -/
def payment_total (order_payments : List PaymentRow) : List (String × ℚ) :=
  groupApply order_payments (fun pr => pr.order_id)
    (fun grp => (grp.filterMap (fun pr => pr.payment_value)).sum)

/-- df = df.merge(payment_mode, on="order_id", how="left"). -/
def fact_stage3 (t : Tables) : List FactRow :=
  leftMerge (fact_stage2 t) (payment_mode t.order_payments)
    (fun r kv => decide (kv.1 = r.order_id))
    (fun r ob => { r with payment_type_mode := ob.bind (fun kv => kv.2) })

/-- df = df.merge(payment_total, on="order_id", how="left"). -/
def fact_stage4 (t : Tables) : List FactRow :=
  leftMerge (fact_stage3 t) (payment_total t.order_payments)
    (fun r kv => decide (kv.1 = r.order_id))
    (fun r ob => { r with payment_value_sum := ob.map (fun kv => kv.2) })

/-- order_items.merge(products, on="product_id", how="left"). -/
def items_joined1 (t : Tables) : List ItemJoined :=
  leftMerge t.order_items t.products
    (fun it pr => decide (pr.product_id = it.product_id))
    (fun it ob =>
      ⟨it.order_id, it.product_id, it.freight_value,
       ob.bind (fun pr => pr.product_category_name), none⟩)

/-- ...merge(translation, on="product_category_name", how="left"): an item
with a null category name matches no translation row (the translation key
column holds no nulls). -/
def items_joined2 (t : Tables) : List ItemJoined :=
  leftMerge (items_joined1 t) t.product_category_translation
    (fun r tr =>
      decide ((some tr.product_category_name : Option String) =
        r.product_category_name))
    (fun r ob =>
      { r with product_category_name_english :=
          ob.bind (fun tr => tr.product_category_name_english) })

/-- items_with_product["product_category_name_english"] =
english.fillna(product_category_name): the per-row fallback to the
untranslated name. -/
def items_with_product (t : Tables) : List ItemJoined :=
  (items_joined2 t).map
    (fun r =>
      { r with product_category_name_english :=
          r.product_category_name_english <|> r.product_category_name })

/-- items_with_product.groupby("order_id")["freight_value"].sum(). -/
def freight_agg (t : Tables) : List (String × ℚ) :=
  groupApply (items_with_product t) (fun r => r.order_id)
    (fun grp => (grp.filterMap (fun r => r.freight_value)).sum)

/-- items_with_product.groupby("order_id")
["product_category_name_english"].agg(_mode_or_first). -/
def category_agg (t : Tables) : List (String × Option String) :=
  groupApply (items_with_product t) (fun r => r.order_id)
    (fun grp => _mode_or_first (grp.map (fun r => r.product_category_name_english)))

/-- df = df.merge(freight_agg, on="order_id", how="left"). -/
def fact_stage5 (t : Tables) : List FactRow :=
  leftMerge (fact_stage4 t) (freight_agg t)
    (fun r kv => decide (kv.1 = r.order_id))
    (fun r ob => { r with freight_value_sum := ob.map (fun kv => kv.2) })

/-- df = df.merge(category_agg, on="order_id", how="left"). -/
def fact_stage6 (t : Tables) : List FactRow :=
  leftMerge (fact_stage5 t) (category_agg t)
    (fun r kv => decide (kv.1 = r.order_id))
    (fun r ob => { r with product_category_mode := ob.bind (fun kv => kv.2) })

/-- The delivered-row delay computation of transform.py lines 108-116.
delay_days stays null when either date is null (NaT propagates through the
subtraction and .dt.days).  on_time is assigned for every delivered row:
the column holding the delay values has object dtype, so the comparison
delay_days <= 0 evaluates NaN <= 0 to False elementwise; a delivered row
with a null delay therefore gets on_time = False, not null. -/
def delay_on_time_step (r : FactRow) : FactRow :=
  if r.order_status = "delivered" then
    let delay : Option Int :=
      match r.order_delivered_customer_date,
            r.order_estimated_delivery_date with
      | some d, some e => some (d - e)
      | _, _ => none
    { r with
        delay_days := delay,
        on_time := some (match delay with
          | some dd => decide (dd ≤ 0)
          | none => false) }
  else r

/-- transform.build_fact_orders after load_required_from_raw: the merge
chain and the delay computation.  (The pd.to_datetime parsing of the two
delivery-date columns is the identity here because those cells are already
modelled as parse results.) -/
def build_fact_orders_core (t : Tables) : List FactRow :=
  (fact_stage6 t).map delay_on_time_step

/-- The raw data directory: for each required CSV filename, the parsed
table when the file exists, none when it is absent. -/
structure RawDir where
  orders : Option (List OrderRow)
  customers : Option (List CustomerRow)
  order_items : Option (List ItemRow)
  order_payments : Option (List PaymentRow)
  products : Option (List ProductRow)
  product_category_translation : Option (List TranslationRow)
  geolocation : Option (List GeolocationRow)
deriving DecidableEq

/-- data_load.load_csv_from_raw: pd.read_csv raises FileNotFoundError when
the file is absent, modelled as an Except error. -/
def load_csv_from_raw {α : Type} (filename : String) (file : Option α) :
    Except String α :=
  match file with
  | some a => Except.ok a
  | none => Except.error ("source file not found: " ++ filename)

/-- data_load.load_required_from_raw: loads the seven required CSVs,
failing on the first missing one. -/
def load_required_from_raw (raw_dir : RawDir) : Except String Tables := do
  let orders ← load_csv_from_raw "olist_orders_dataset.csv" raw_dir.orders
  let customers ← load_csv_from_raw "olist_customers_dataset.csv"
    raw_dir.customers
  let order_items ← load_csv_from_raw "olist_order_items_dataset.csv"
    raw_dir.order_items
  let order_payments ← load_csv_from_raw "olist_order_payments_dataset.csv"
    raw_dir.order_payments
  let products ← load_csv_from_raw "olist_products_dataset.csv"
    raw_dir.products
  let translation ← load_csv_from_raw "product_category_name_translation.csv"
    raw_dir.product_category_translation
  let geolocation ← load_csv_from_raw "olist_geolocation_dataset.csv"
    raw_dir.geolocation
  pure ⟨orders, customers, order_items, order_payments, products,
    translation, geolocation⟩

/-- transform.build_fact_orders: load the raw tables, then assemble the
fact table.  A missing source file surfaces as an error. -/
def build_fact_orders (raw_dir : RawDir) : Except String (List FactRow) := do
  let data ← load_required_from_raw raw_dir
  pure (build_fact_orders_core data)

/-- The processed directory: the fact_orders.parquet artifact when it
exists. -/
structure ProcessedDir where
  fact_orders_parquet : Option (List FactRow)
deriving DecidableEq

/-- transform.get_fact_orders: if use_cache_file and the parquet artifact
exists, read and return it unchanged; otherwise build from raw, persist the
result, and return it.  Returns the table with the resulting state of the
processed directory. -/
def get_fact_orders (raw_dir : RawDir) (processed_dir : ProcessedDir)
    (use_cache_file : Bool) : Except String (List FactRow × ProcessedDir) :=
  match use_cache_file, processed_dir.fact_orders_parquet with
  | true, some df => Except.ok (df, processed_dir)
  | _, _ => do
    let df ← build_fact_orders raw_dir
    pure (df, ⟨some df⟩)

/-- pd.Timestamp.min in the integer timestamp model. -/
def ts_min : Int := -(9223372036854775808 : Int)

/-- pd.Timestamp.max in the integer timestamp model. -/
def ts_max : Int := 9223372036854775807

/-- pd.to_datetime(errors="coerce") on one order_purchase_timestamp cell:
a string is parsed (null when unparseable), a parsed timestamp and a null
pass through. -/
def to_datetime (parse : String → Option Int) : TsVal → TsVal
  | TsVal.str s =>
    match parse s with
    | some t => TsVal.ts t
    | none => TsVal.null
  | TsVal.ts t => TsVal.ts t
  | TsVal.null => TsVal.null

/-- Series.fillna(default) on a datetime cell, for the date-bound
comparisons of apply_filters. -/
def ts_fill (default : Int) : TsVal → Int
  | TsVal.ts t => t
  | _ => default

/-- The pd.to_datetime(errors="coerce") pass apply_filters runs over the
order_purchase_timestamp column before filtering. -/
def parse_ts_column (parse : String → Option Int) (df : List FactRow) :
    List FactRow :=
  df.map (fun r =>
    { r with order_purchase_timestamp :=
        to_datetime parse r.order_purchase_timestamp })

/-- The date-range stage of apply_filters: an active lower bound keeps rows
with fillna(Timestamp.min) timestamp at or above it, an active upper bound
keeps rows with fillna(Timestamp.max) timestamp at or below it. -/
def date_filter (date_range : Option (Option Int × Option Int))
    (l : List FactRow) : List FactRow :=
  match date_range with
  | none => l
  | some (start_dt, end_dt) =>
    let l1 :=
      match start_dt with
      | none => l
      | some sd =>
        l.filter (fun r =>
          decide (sd ≤ ts_fill ts_min r.order_purchase_timestamp))
    match end_dt with
    | none => l1
    | some ed =>
      l1.filter (fun r =>
        decide (ts_fill ts_max r.order_purchase_timestamp ≤ ed))

/-- One isin membership stage of apply_filters (states, categories or
payment types): none or an empty list means no filtering; a null field
value never matches an active filter. -/
def isin_filter (allowed : Option (List String))
    (field : FactRow → Option String) (l : List FactRow) : List FactRow :=
  match allowed with
  | none => l
  | some vs =>
    if vs = [] then l
    else
      l.filter (fun r =>
        match field r with
        | some s => decide (s ∈ vs)
        | none => false)

/-- The delivered-only stage of apply_filters. -/
def delivered_filter (delivered_only : Bool) (l : List FactRow) :
    List FactRow :=
  if delivered_only then
    l.filter (fun r => decide (r.order_status = "delivered"))
  else l

/-- The filter arguments of metrics.apply_filters. -/
structure FilterCfg where
  date_range : Option (Option Int × Option Int)
  states : Option (List String)
  categories : Option (List String)
  payment_types : Option (List String)
  delivered_only : Bool
deriving DecidableEq

/-- metrics.apply_filters: empty input short-circuits to an empty frame;
otherwise the purchase timestamp column is re-parsed and the five filter
stages run in source order (dates, states, categories, payment types,
delivered-only). -/
def apply_filters (parse : String → Option Int) (df : List FactRow)
    (cfg : FilterCfg) : List FactRow :=
  if df = [] then []
  else
    delivered_filter cfg.delivered_only
      (isin_filter cfg.payment_types (fun r => r.payment_type_mode)
        (isin_filter cfg.categories (fun r => r.product_category_mode)
          (isin_filter cfg.states (fun r => r.customer_state)
            (date_filter cfg.date_range (parse_ts_column parse df)))))

/-- The dictionary returned by metrics.compute_kpis. -/
structure Kpis where
  total_orders : Nat
  delivered_orders : Nat
  on_time_count : Nat
  on_time_rate : ℚ
  avg_delay_days : ℚ
  total_payment_value : ℚ
  total_freight_value : ℚ
deriving DecidableEq

/-- metrics.compute_kpis.  on_time_count counts delivered rows whose
on_time is non-null and True; on_time_rate divides it by the count of all
delivered rows; avg_delay_days averages the non-null delays of delivered
rows; the payment and freight totals treat nulls as zero.  An empty input
returns the all-zero defaults, and the delivered_orders > 0 guard keeps
every division away from a zero denominator. -/
def compute_kpis (df : List FactRow) : Kpis :=
  if df = [] then ⟨0, 0, 0, 0, 0, 0, 0⟩
  else
    let delivered := df.filter (fun r => decide (r.order_status = "delivered"))
    let stats :=
      if 0 < delivered.length then
        let on_time_valid := delivered.filterMap (fun r => r.on_time)
        let otc := (on_time_valid.filter (fun b => b)).length
        let delay_valid := delivered.filterMap (fun r => r.delay_days)
        let add : ℚ :=
          if 0 < delay_valid.length then
            (delay_valid.map (fun z => (z : ℚ))).sum / (delay_valid.length : ℚ)
          else 0
        (otc, (otc : ℚ) / (delivered.length : ℚ), add)
      else (0, (0 : ℚ), (0 : ℚ))
    ⟨df.length, delivered.length, stats.1, stats.2.1, stats.2.2,
     (df.filterMap (fun r => r.payment_value_sum)).sum,
     (df.filterMap (fun r => r.freight_value_sum)).sum⟩

/-- One output row of metrics.group_geo. -/
structure GeoRow where
  customer_state : String
  mean_lat : Option ℚ
  mean_lng : Option ℚ
  order_count : Nat
  delivered_count : Nat
  on_time_count : Nat
  on_time_rate : ℚ
  avg_delay_days : ℚ
deriving DecidableEq

/-- A dataframe returned by group_geo: its column list together with its
rows. -/
structure GeoResult where
  cols : List String
  rows : List GeoRow
deriving DecidableEq

/-- The eight columns of the regular group_geo output (also used by its
empty and all-null-coordinate early returns). -/
def geo_result_cols : List String :=
  ["customer_state", "mean_lat", "mean_lng", "order_count",
   "delivered_count", "on_time_count", "on_time_rate", "avg_delay_days"]

/-- The four columns (geo_cols + ["order_count"]) of the early return taken
when a required geo column is absent from the input. -/
def geo_missing_cols : List String :=
  ["customer_state", "mean_lat", "mean_lng", "order_count"]

/-- metrics.group_geo.  columns is the column list of the input frame (the typed
rows model the data; the column list governs the structural check).  Empty
input returns zero rows with the eight documented columns; a missing
required geo column returns zero rows with only four columns; dropping
null-coordinate rows may also leave nothing, again giving the eight-column
empty frame.  Otherwise rows are grouped by state (null states dropped by
groupby), the delivered aggregate is left-joined per state, and the
post-processing fills nulls with zeros and computes the on-time rate with a
zero denominator replaced by null and then filled with zero. -/
def group_geo (columns : List String) (df : List FactRow) : GeoResult :=
  if df = [] then ⟨geo_result_cols, []⟩
  else if "customer_state" ∈ columns ∧ "mean_lat" ∈ columns ∧
      "mean_lng" ∈ columns then
    let geo_clean := df.filter (fun r => r.mean_lat.isSome && r.mean_lng.isSome)
    if geo_clean = [] then ⟨geo_result_cols, []⟩
    else
      let base :=
        groupApply (geo_clean.filter (fun r => r.customer_state.isSome))
          (fun r => r.customer_state.getD "")
          (fun grp =>
            (meanOpt (grp.map (fun r => r.mean_lat)),
             meanOpt (grp.map (fun r => r.mean_lng)),
             ((grp.map (fun r => r.order_id)).dedup).length))
      let delivered := geo_clean.filter (fun r => decide (r.order_status = "delivered"))
      let delivered_agg :=
        groupApply (delivered.filter (fun r => r.customer_state.isSome))
          (fun r => r.customer_state.getD "")
          (fun grp =>
            (((grp.map (fun r => r.order_id)).dedup).length,
             (grp.filter (fun r => decide (r.on_time = some true))).length,
             meanOpt (grp.map (fun r => r.delay_days.map (fun z => (z : ℚ))))))
      ⟨geo_result_cols,
       base.map (fun kv =>
         let found :=
           if delivered = [] then none
           else delivered_agg.find? (fun dv => decide (dv.1 = kv.1))
         let dc : Nat := match found with | some dv => dv.2.1 | none => 0
         let otc : Nat := match found with | some dv => dv.2.2.1 | none => 0
         let add : ℚ :=
           match found with | some dv => dv.2.2.2.getD 0 | none => 0
         ⟨kv.1, kv.2.1, kv.2.2.1, kv.2.2.2, dc, otc,
          if dc = 0 then 0 else (otc : ℚ) / (dc : ℚ), add⟩)⟩
  else ⟨geo_missing_cols, []⟩

/-- A fact row with empty identifiers and all nullable fields null, used as
a template for concrete test inputs. -/
def base_fact : FactRow :=
  ⟨"", "", "", TsVal.null, none, none, none, none, none, none, none, none,
   none, none, none, none⟩

/-- Concrete input: one order, but its customer id appears on two customer
rows, so the left join to customers duplicates the order. -/
def exC1 : Tables :=
  ⟨[⟨"A", "C", "shipped", TsVal.null, none, none⟩],
   [⟨"C", 1, some "SP"⟩, ⟨"C", 2, some "RJ"⟩],
   [], [], [], [], []⟩

/-- Concrete input: one delivered order with one customer and no payment,
item or geolocation data at all. -/
def exC1w : Tables :=
  ⟨[⟨"A", "C", "delivered", TsVal.null, some 8, some 10⟩],
   [⟨"C", 5, some "SP"⟩],
   [], [], [], [], []⟩

/-- Concrete input: a delivered order whose delivered-customer date is
missing (unparseable), while the estimated date is present. -/
def exC2 : Tables :=
  ⟨[⟨"B", "CB", "delivered", TsVal.null, none, some 0⟩],
   [], [], [], [], [], []⟩

/-- Concrete filtered frame: two delivered rows, one on time and one with a
null on_time. -/
def exDf4 : List FactRow :=
  [{ base_fact with
       order_id := "o1"
       order_status := "delivered"
       on_time := some true },
   { base_fact with
       order_id := "o2"
       order_status := "delivered"
       on_time := none }]

/-- A parse function under which every string cell is unparseable, as
pd.to_datetime(errors="coerce") is on a string such as "garbage". -/
def parse_none : String → Option Int := fun _ => none

/-- Concrete frame whose purchase-timestamp cell is an unparseable raw
string. -/
def exDf5 : List FactRow :=
  [{ base_fact with
       order_id := "o5"
       order_purchase_timestamp := TsVal.str "garbage" }]

/-- The apply_filters configuration with no active filter. -/
def cfg_no_filters : FilterCfg := ⟨none, none, none, none, false⟩

/-- Concrete input for the category aggregation: one order with three
items; one category has an English translation, the other two share a
category with no translation and fall back to its untranslated name, which
then wins the mode. -/
def exC8 : Tables :=
  ⟨[⟨"O1", "C8", "shipped", TsVal.null, none, none⟩],
   [],
   [⟨"O1", "P1", none⟩, ⟨"O1", "P2", none⟩, ⟨"O1", "P3", none⟩],
   [],
   [⟨"P1", some "beleza_saude"⟩, ⟨"P2", some "utilidades"⟩,
    ⟨"P3", some "utilidades"⟩],
   [⟨"beleza_saude", some "health_beauty"⟩],
   []⟩

/-- A raw directory with all seven required files present (empty tables). -/
def raw_all_present : RawDir :=
  ⟨some [], some [], some [], some [], some [], some [], some []⟩

/-- A raw directory whose geolocation CSV is absent. -/
def raw_missing_geo : RawDir :=
  ⟨some [], some [], some [], some [], some [], some [], none⟩

/-- A processed directory already holding a cached fact table that differs
from what any rebuild would produce. -/
def cache_with_stale : ProcessedDir :=
  ⟨some [{ base_fact with order_id := "cached" }]⟩

/-- The category of an item row after the left join to products: the
category of the unique matching product, null when the product is absent
or its category is null. -/
def catOf (t : Tables) (it : ItemRow) : Option String :=
  (t.products.find? (fun pr => decide (pr.product_id = it.product_id))).bind
    (fun pr => pr.product_category_name)

/-- The per-item substituted category value: the English translation of the
category of the item when a translation row exists and its English name is
non-null, otherwise the original untranslated category name (null stays
null). -/
def itemCategoryValue (t : Tables) (it : ItemRow) : Option String :=
  ((t.product_category_translation.find? (fun tr =>
      decide ((some tr.product_category_name : Option String) = catOf t it))).bind
    (fun tr => tr.product_category_name_english)) <|> catOf t it

/-- The items_with_product row an item produces when product ids and
translation keys are unique. -/
def item_joined_row (t : Tables) (it : ItemRow) : ItemJoined :=
  ⟨it.order_id, it.product_id, it.freight_value, catOf t it,
   itemCategoryValue t it⟩

/-- The first row of the fact table built from exC1w. -/
def exC1w_row : FactRow := (build_fact_orders_core exC1w).headD base_fact

/-- The first row of the fact table built from exC2. -/
def exC2_row : FactRow := (build_fact_orders_core exC2).headD base_fact

/-- The first row of the fact table built from exC8. -/
def exC8_row : FactRow := (build_fact_orders_core exC8).headD base_fact

/-- The head of a filtered list is the first element satisfying the
predicate. -/
theorem head?_filter {α : Type} (p : α → Bool) (l : List α) :
    (l.filter p).head? = l.find? p := by
  induction l with
  | nil => rfl
  | cons a l ih =>
    cases h : p a <;> simp [List.filter_cons, List.find?_cons, h, ih]

/-- A list whose key images are distinct has at most one element passing
any predicate that pins the key to a single value. -/
theorem filter_key_len_le {β κ : Type} (key : β → κ) (k : κ) (q : β → Bool)
    (hq : ∀ b, q b = true → key b = k)
    (R : List β) (h : (R.map key).Nodup) :
    (R.filter q).length ≤ 1 := by
  induction R with
  | nil => simp
  | cons b R ih =>
    simp only [List.map_cons, List.nodup_cons] at h
    cases hqb : q b
    · simpa [List.filter_cons, hqb] using ih h.2
    · have hbk : key b = k := hq b hqb
      have hnil : R.filter q = [] := by
        rw [List.filter_eq_nil_iff]
        intro x hx hqx
        exact h.1 (hbk ▸ (hq x hqx) ▸ List.mem_map_of_mem key hx)
      simp [List.filter_cons, hqb, hnil]

/-- When every left row has at most one match on the right, a left merge is
a map pairing each left row with its find? lookup. -/
theorem leftMerge_eq_map {α β γ : Type} (L : List α) (R : List β)
    (p : α → β → Bool) (c : α → Option β → γ)
    (h : ∀ a ∈ L, (R.filter (p a)).length ≤ 1) :
    leftMerge L R p c = L.map (fun a => c a (R.find? (p a))) := by
  induction L with
  | nil => rfl
  | cons a rest ih =>
    have hfind : R.find? (p a) = (R.filter (p a)).head? :=
      (head?_filter (p a) R).symm
    cases hf : R.filter (p a) with
    | nil =>
      simp [leftMerge, hf, hfind, ih fun x hx => h x (List.mem_cons_of_mem a hx)]
    | cons b bs =>
      have hb : bs = [] := by
        have := h a (List.mem_cons_self a rest)
        rw [hf] at this
        simpa using List.length_eq_zero.mp (Nat.le_zero.mp
          (Nat.lt_succ_iff.mp (by simpa using this)))
      subst hb
      simp [leftMerge, hf, hfind, ih fun x hx => h x (List.mem_cons_of_mem a hx)]

/-- Every row of a left merge comes from some left row. -/
theorem mem_leftMerge {α β γ : Type} {L : List α} {R : List β}
    {p : α → β → Bool} {c : α → Option β → γ} {r : γ}
    (h : r ∈ leftMerge L R p c) : ∃ a ∈ L, ∃ ob, r = c a ob := by
  induction L with
  | nil => simp [leftMerge] at h
  | cons a rest ih =>
    rw [leftMerge] at h
    rcases List.mem_append.mp h with h1 | h2
    · cases hf : R.filter (p a) with
      | nil =>
        rw [hf] at h1
        simp only [List.mem_singleton] at h1
        exact ⟨a, List.mem_cons_self a rest, none, h1⟩
      | cons b bs =>
        rw [hf] at h1
        rcases List.mem_map.mp h1 with ⟨x, _, hx⟩
        exact ⟨a, List.mem_cons_self a rest, some x, hx.symm⟩
    · rcases ih h2 with ⟨x, hx, ob, hr⟩
      exact ⟨x, List.mem_cons_of_mem a hx, ob, hr⟩

/-- find? over a keyed map of distinct keys is a dictionary lookup, for
any predicate that tests the key against a fixed value. -/
theorem find?_map_of_nodup {κ γ : Type} [DecidableEq κ] (ks : List κ)
    (F : κ → γ) (k : κ) (q : κ × γ → Bool)
    (hq : ∀ kv, q kv = true ↔ kv.1 = k) (h : ks.Nodup) :
    (ks.map (fun x => (x, F x))).find? q =
      if k ∈ ks then some (k, F k) else none := by
  induction ks with
  | nil => simp
  | cons a ks ih =>
    simp only [List.nodup_cons] at h
    by_cases hak : a = k
    · subst hak
      rw [List.map_cons, List.find?_cons_of_pos _ ((hq (a, F a)).mpr rfl)]
      simp
    · rw [List.map_cons,
        List.find?_cons_of_neg _ (fun hc => hak ((hq (a, F a)).mp hc)),
        ih h.2]
      simp [List.mem_cons, Ne.symm hak]

/-- The key list underlying groupApply. -/
theorem groupApply_map_fst {β κ γ : Type} [LinearOrder κ] [DecidableEq κ] (rows : List β)
    (key : β → κ) (f : List β → γ) :
    (groupApply rows key f).map (fun kv => kv.1) =
      List.insertionSort (fun a b => a ≤ b) ((rows.map key).dedup) := by
  unfold groupApply
  rw [List.map_map]
  exact List.map_id'' (fun x => rfl) _

/-- groupApply emits pairwise distinct keys. -/
theorem groupApply_keys_nodup {β κ γ : Type} [LinearOrder κ] [DecidableEq κ] (rows : List β)
    (key : β → κ) (f : List β → γ) :
    ((groupApply rows key f).map (fun kv => kv.1)).Nodup := by
  rw [groupApply_map_fst]
  exact (List.perm_insertionSort _ _).nodup_iff.mpr (List.nodup_dedup _)

/-- A key appears in the groupApply key list exactly when some input row
has that key. -/
theorem groupApply_mem_keys {β κ : Type} [LinearOrder κ] [DecidableEq κ] (rows : List β)
    (key : β → κ) (k : κ) :
    (k ∈ List.insertionSort (fun a b => a ≤ b) ((rows.map key).dedup)) ↔
      ¬ rows.filter (fun b => decide (key b = k)) = [] := by
  rw [(List.perm_insertionSort _ _).mem_iff, List.mem_dedup, List.mem_map]
  constructor
  · rintro ⟨b, hb, hkb⟩
    exact List.ne_nil_of_mem (List.mem_filter.mpr ⟨hb, by simp [hkb]⟩)
  · intro hne
    rcases List.exists_mem_of_ne_nil _ hne with ⟨x, hx⟩
    rcases List.mem_filter.mp hx with ⟨hx1, hx2⟩
    exact ⟨x, hx1, by simpa using hx2⟩

/-- Every key emitted by groupApply is the key of some input row. -/
theorem mem_groupApply_key {β κ γ : Type} [LinearOrder κ] [DecidableEq κ] {rows : List β}
    {key : β → κ} {f : List β → γ} {kv : κ × γ}
    (h : kv ∈ groupApply rows key f) : ∃ b ∈ rows, key b = kv.1 := by
  unfold groupApply at h
  rcases List.mem_map.mp h with ⟨k0, hk0, rfl⟩
  rw [(List.perm_insertionSort _ _).mem_iff, List.mem_dedup,
    List.mem_map] at hk0
  rcases hk0 with ⟨b, hb, hkb⟩
  exact ⟨b, hb, hkb⟩

/-- Looking up a key with no matching input row in a groupApply result
finds nothing, for any predicate that tests the key against that value. -/
theorem groupApply_find?_eq_none {β κ γ : Type} [LinearOrder κ] [DecidableEq κ]
    (rows : List β) (key : β → κ) (f : List β → γ) (k : κ)
    (q : κ × γ → Bool) (hq : ∀ kv, q kv = true ↔ kv.1 = k)
    (hf : ∀ b ∈ rows, ¬ key b = k) :
    (groupApply rows key f).find? q = none := by
  rw [List.find?_eq_none]
  intro kv hkv hqkv
  rcases mem_groupApply_key hkv with ⟨b, hb, hkb⟩
  exact hf b hb (((hq kv).mp hqkv) ▸ hkb)

/-- Looking up a key with at least one matching input row in a groupApply
result finds the aggregate of the matching rows, stated for any predicate
pair testing the key. -/
theorem groupApply_find?_eq_some {β κ γ : Type} [LinearOrder κ] [DecidableEq κ]
    (rows : List β) (key : β → κ) (f : List β → γ) (k : κ)
    (q : κ × γ → Bool) (hq : ∀ kv, q kv = true ↔ kv.1 = k)
    (qr : β → Bool) (hqr : ∀ b, qr b = true ↔ key b = k)
    (hf : ¬ rows.filter qr = []) :
    (groupApply rows key f).find? q = some (k, f (rows.filter qr)) := by
  have hfeq : rows.filter (fun b => decide (key b = k)) = rows.filter qr :=
    List.filter_congr (fun b _ => by
      rw [Bool.eq_iff_iff]
      simp [hqr b])
  have hnodup : (List.insertionSort (fun a b => a ≤ b)
      ((rows.map key).dedup)).Nodup :=
    (List.perm_insertionSort _ _).nodup_iff.mpr (List.nodup_dedup _)
  unfold groupApply
  rw [find?_map_of_nodup _ _ _ _ hq hnodup,
    if_pos ((groupApply_mem_keys rows key k).mpr (by
      rw [hfeq]
      exact hf)), hfeq]

/-- At most one groupApply row passes a predicate pinning the key to a
fixed value. -/
theorem groupApply_filter_len_le {β κ γ : Type} [LinearOrder κ] [DecidableEq κ]
    (rows : List β) (key : β → κ) (f : List β → γ) (k : κ)
    (q : κ × γ → Bool) (hq : ∀ kv, q kv = true → kv.1 = k) :
    ((groupApply rows key f).filter q).length ≤ 1 :=
  filter_key_len_le (fun kv : κ × γ => kv.1) k q hq _
    (groupApply_keys_nodup rows key f)

/-- At most one groupApply row passes a predicate pinning the key under
the some embedding (the geo-lookup merge predicate). -/
theorem groupApply_filter_some_len_le {β κ γ : Type} [LinearOrder κ] [DecidableEq κ]
    (rows : List β) (key : β → κ) (f : List β → γ) (z : Option κ)
    (q : κ × γ → Bool) (hq : ∀ kv, q kv = true → (some kv.1 : Option κ) = z) :
    ((groupApply rows key f).filter q).length ≤ 1 := by
  apply filter_key_len_le (fun kv : κ × γ => (some kv.1 : Option κ)) z q hq
  have hmm : (groupApply rows key f).map (fun kv => (some kv.1 : Option κ)) =
      ((groupApply rows key f).map (fun kv => kv.1)).map some := by
    rw [List.map_map]
    exact List.map_congr_left (fun a _ => rfl)
  rw [hmm]
  exact (groupApply_keys_nodup rows key f).map (Option.some_injective κ)

/-- An element of a Nat list is at most the foldr max of the list. -/
theorem le_foldr_max {l : List ℕ} {x : ℕ} (h : x ∈ l) :
    x ≤ l.foldr max 0 := by
  induction l with
  | nil => simp at h
  | cons a l ih =>
    rcases List.mem_cons.mp h with rfl | hx
    · exact le_max_left _ _
    · exact le_trans (ih hx) (le_max_right _ _)

/-- The head of series_mode is a most frequent value, and the least such
value in ascending order. -/
theorem series_mode_head (l : List String) (v : String)
    (h : (series_mode l).head? = some v) :
    0 < l.count v ∧ (∀ w, l.count w ≤ l.count v) ∧
      (∀ w, l.count w = l.count v → v ≤ w) := by
  unfold series_mode at h
  set M := ((l.dedup.map (fun x => l.count x)).foldr max 0) with hM
  set chosen := l.dedup.filter (fun x => decide (l.count x = M)) with hchosen
  have hv_mem : v ∈ List.insertionSort (fun a b => a ≤ b) chosen :=
    List.mem_of_mem_head? h
  have hv_chosen : v ∈ chosen := (List.perm_insertionSort _ _).mem_iff.mp hv_mem
  rcases List.mem_filter.mp hv_chosen with ⟨hv_dedup, hv_count⟩
  have hv_count : l.count v = M := by simpa using hv_count
  have hcount_le : ∀ w, l.count w ≤ l.count v := by
    intro w
    by_cases hw : w ∈ l
    · have : l.count w ∈ l.dedup.map (fun x => l.count x) :=
        List.mem_map_of_mem _ (List.mem_dedup.mpr hw)
      rw [hv_count]
      exact le_foldr_max this
    · simp [List.count_eq_zero_of_not_mem hw]
  have hv_pos : 0 < l.count v :=
    List.count_pos_iff.mpr (List.mem_dedup.mp hv_dedup)
  refine ⟨hv_pos, hcount_le, ?_⟩
  intro w hw_count
  have hw_mem : w ∈ l := by
    apply List.count_pos_iff.mp
    rw [hw_count]
    exact hv_pos
  have hw_chosen : w ∈ chosen :=
    List.mem_filter.mpr ⟨List.mem_dedup.mpr hw_mem,
      by simp [hw_count ▸ hv_count]⟩
  have hw_sorted : w ∈ List.insertionSort (fun a b => a ≤ b) chosen :=
    (List.perm_insertionSort _ _).mem_iff.mpr hw_chosen
  have hsorted : List.Sorted (fun a b => a ≤ b)
      (List.insertionSort (fun a b => a ≤ b) chosen) :=
    List.sorted_insertionSort _ _
  rcases hs : List.insertionSort (fun a b => a ≤ b) chosen with _ | ⟨hd, tl⟩
  · rw [hs] at h
    simp at h
  · rw [hs] at h
    simp only [List.head?_cons, Option.some.injEq] at h
    subst h
    rw [hs] at hw_sorted hsorted
    rcases List.mem_cons.mp hw_sorted with rfl | hw_tl
    · exact le_refl _
    · exact List.rel_of_sorted_cons hsorted _ hw_tl

/-- Before the final delay computation, every row of the merge chain still
has null delay_days and on_time. -/
theorem stage6_delay_on_time_none (t : Tables) :
    ∀ r ∈ fact_stage6 t, r.delay_days = none ∧ r.on_time = none := by
  intro r hr
  unfold fact_stage6 at hr
  rcases mem_leftMerge hr with ⟨r5, hr5, ob6, rfl⟩
  unfold fact_stage5 at hr5
  rcases mem_leftMerge hr5 with ⟨r4, hr4, ob5, rfl⟩
  unfold fact_stage4 at hr4
  rcases mem_leftMerge hr4 with ⟨r3, hr3, ob4, rfl⟩
  unfold fact_stage3 at hr3
  rcases mem_leftMerge hr3 with ⟨r2, hr2, ob3, rfl⟩
  unfold fact_stage2 at hr2
  rcases mem_leftMerge hr2 with ⟨r1, hr1, ob2, rfl⟩
  unfold fact_stage1 at hr1
  rcases mem_leftMerge hr1 with ⟨o, ho, ob1, rfl⟩
  simp [mk_fact_row]

/-- C2 (amended): in every fact table built by build_fact_orders, both
delay_days and on_time are null for every non-delivered row; for a
delivered row on_time is always non-null, while delay_days is non-null
exactly when both the delivered and the estimated date parsed.  (The claim
as frozen also asserted delay_days non-null for every delivered row, which
fails when a date is missing: see the counterexample.) -/
theorem C2_delay_on_time_null_iff_delivered (t : Tables) :
    ∀ r ∈ build_fact_orders_core t,
      (¬ r.order_status = "delivered" →
        r.delay_days = none ∧ r.on_time = none) ∧
      (r.order_status = "delivered" →
        r.on_time ≠ none ∧
        (r.delay_days ≠ none ↔
          (r.order_delivered_customer_date ≠ none ∧
           r.order_estimated_delivery_date ≠ none))) := by
  intro r hr
  unfold build_fact_orders_core at hr
  rcases List.mem_map.mp hr with ⟨r6, hr6, rfl⟩
  obtain ⟨hd, hot⟩ := stage6_delay_on_time_none t r6 hr6
  unfold delay_on_time_step
  by_cases hs : r6.order_status = "delivered"
  · rcases hdd : r6.order_delivered_customer_date with _ | d <;>
      rcases hee : r6.order_estimated_delivery_date with _ | e <;>
      simp [hs, hdd, hee]
  · simp [hs, hd, hot]

/-- C2 counterexample: on the concrete input exC2 (a delivered order whose
delivered-customer date is missing), the fact row is delivered yet its
delay_days is null, refuting the claimed equivalence as frozen. -/
theorem C2_counterexample :
    ¬ (∀ r ∈ build_fact_orders_core exC2,
        ((r.delay_days ≠ none ∧ r.on_time ≠ none) ↔
          r.order_status = "delivered")) := by decide

/-- C2 witness: the amended theorem applied to the concrete input exC2 and
its fact row. -/
theorem C2_witness :
    exC2_row ∈ build_fact_orders_core exC2 ∧
    (exC2_row.order_status = "delivered" →
      exC2_row.on_time ≠ none ∧
      (exC2_row.delay_days ≠ none ↔
        (exC2_row.order_delivered_customer_date ≠ none ∧
         exC2_row.order_estimated_delivery_date ≠ none))) :=
  ⟨by decide,
   (C2_delay_on_time_null_iff_delivered exC2 exC2_row (by decide)).2⟩

/-- C3 (amended): in every fact table built by build_fact_orders, on_time
equals delay_days <= 0 whenever delay_days is non-null, and on_time is null
for every non-delivered row; but for a delivered row whose delay_days is
null, on_time is False rather than null (the delay column has object dtype,
so NaN <= 0 evaluates to False). -/
theorem C3_on_time_vs_delay (t : Tables) :
    ∀ r ∈ build_fact_orders_core t,
      (∀ d, r.delay_days = some d → r.on_time = some (decide (d ≤ 0))) ∧
      (r.order_status = "delivered" → r.delay_days = none →
        r.on_time = some false) ∧
      (¬ r.order_status = "delivered" → r.on_time = none) := by
  intro r hr
  unfold build_fact_orders_core at hr
  rcases List.mem_map.mp hr with ⟨r6, hr6, rfl⟩
  obtain ⟨hd, hot⟩ := stage6_delay_on_time_none t r6 hr6
  unfold delay_on_time_step
  by_cases hs : r6.order_status = "delivered"
  · rcases hdd : r6.order_delivered_customer_date with _ | d <;>
      rcases hee : r6.order_estimated_delivery_date with _ | e <;>
      simp [hs, hdd, hee, hd]
  · simp [hs, hd, hot]

/-- C3 counterexample: on the concrete input exC2, the delivered fact row
has null delay_days but on_time = False (a boolean, not null), refuting the
frozen claim that on_time is null whenever delay_days is null. -/
theorem C3_counterexample :
    ¬ (∀ r ∈ build_fact_orders_core exC2,
        r.delay_days = none → r.on_time = none) := by decide

/-- C3 witness: the amended theorem applied to the concrete input exC2 and
its fact row (whose delay is null and whose on_time is False). -/
theorem C3_witness :
    exC2_row ∈ build_fact_orders_core exC2 ∧
    (exC2_row.order_status = "delivered" → exC2_row.delay_days = none →
      exC2_row.on_time = some false) :=
  ⟨by decide, (C3_on_time_vs_delay exC2 exC2_row (by decide)).2.1⟩

/-- When customer ids are unique, the orders-to-customers merge is a map
pairing each order with its customer lookup. -/
theorem fact_stage1_eq_map (t : Tables)
    (hc : (t.customers.map (fun c => c.customer_id)).Nodup) :
    fact_stage1 t = t.orders.map (fun o =>
      { mk_fact_row o with
          customer_zip_code := (t.customers.find? (fun c =>
            decide (c.customer_id = o.customer_id))).map
              (fun c => c.customer_zip_code),
          customer_state := (t.customers.find? (fun c =>
            decide (c.customer_id = o.customer_id))).bind
              (fun c => c.customer_state) }) := by
  unfold fact_stage1
  rw [leftMerge_eq_map _ _ _ _ (fun o _ =>
    filter_key_len_le (fun c : CustomerRow => c.customer_id) o.customer_id _
      (fun b hb => by simpa using hb) _ hc)]

/-- The geo merge is a map pairing each row with its zip lookup. -/
theorem fact_stage2_eq_map (t : Tables) :
    fact_stage2 t = (fact_stage1 t).map (fun r =>
      { r with
          mean_lat := ((geo_lookup t.geolocation).find? (fun g =>
            decide ((some g.1 : Option Int) = r.customer_zip_code))).bind
              (fun g => g.2.1),
          mean_lng := ((geo_lookup t.geolocation).find? (fun g =>
            decide ((some g.1 : Option Int) = r.customer_zip_code))).bind
              (fun g => g.2.2) }) := by
  have hlen : ∀ r ∈ fact_stage1 t, ((geo_lookup t.geolocation).filter
      (fun g => decide ((some g.1 : Option Int) =
        r.customer_zip_code))).length ≤ 1 :=
    fun r _ => groupApply_filter_some_len_le _ _ _ r.customer_zip_code _
      (fun kv hkv => by simpa using hkv)
  unfold fact_stage2
  rw [leftMerge_eq_map _ _ _ _ hlen]

/-- The payment-mode merge is a map pairing each row with its order-id
lookup. -/
theorem fact_stage3_eq_map (t : Tables) :
    fact_stage3 t = (fact_stage2 t).map (fun r =>
      { r with
          payment_type_mode := ((payment_mode t.order_payments).find?
            (fun kv => decide (kv.1 = r.order_id))).bind
              (fun kv => kv.2) }) := by
  have hlen : ∀ r ∈ fact_stage2 t, ((payment_mode t.order_payments).filter
      (fun kv => decide (kv.1 = r.order_id))).length ≤ 1 :=
    fun r _ => groupApply_filter_len_le _ _ _ r.order_id _
      (fun kv hkv => by simpa using hkv)
  unfold fact_stage3
  rw [leftMerge_eq_map _ _ _ _ hlen]

/-- The payment-total merge is a map pairing each row with its order-id
lookup. -/
theorem fact_stage4_eq_map (t : Tables) :
    fact_stage4 t = (fact_stage3 t).map (fun r =>
      { r with
          payment_value_sum := ((payment_total t.order_payments).find?
            (fun kv => decide (kv.1 = r.order_id))).map
              (fun kv => kv.2) }) := by
  have hlen : ∀ r ∈ fact_stage3 t, ((payment_total t.order_payments).filter
      (fun kv => decide (kv.1 = r.order_id))).length ≤ 1 :=
    fun r _ => groupApply_filter_len_le _ _ _ r.order_id _
      (fun kv hkv => by simpa using hkv)
  unfold fact_stage4
  rw [leftMerge_eq_map _ _ _ _ hlen]

/-- The freight merge is a map pairing each row with its order-id lookup. -/
theorem fact_stage5_eq_map (t : Tables) :
    fact_stage5 t = (fact_stage4 t).map (fun r =>
      { r with
          freight_value_sum := ((freight_agg t).find?
            (fun kv => decide (kv.1 = r.order_id))).map
              (fun kv => kv.2) }) := by
  have hlen : ∀ r ∈ fact_stage4 t, ((freight_agg t).filter
      (fun kv => decide (kv.1 = r.order_id))).length ≤ 1 :=
    fun r _ => groupApply_filter_len_le _ _ _ r.order_id _
      (fun kv hkv => by simpa using hkv)
  unfold fact_stage5
  rw [leftMerge_eq_map _ _ _ _ hlen]

/-- The category merge is a map pairing each row with its order-id
lookup. -/
theorem fact_stage6_eq_map (t : Tables) :
    fact_stage6 t = (fact_stage5 t).map (fun r =>
      { r with
          product_category_mode := ((category_agg t).find?
            (fun kv => decide (kv.1 = r.order_id))).bind
              (fun kv => kv.2) }) := by
  have hlen : ∀ r ∈ fact_stage5 t, ((category_agg t).filter
      (fun kv => decide (kv.1 = r.order_id))).length ≤ 1 :=
    fun r _ => groupApply_filter_len_le _ _ _ r.order_id _
      (fun kv hkv => by simpa using hkv)
  unfold fact_stage6
  rw [leftMerge_eq_map _ _ _ _ hlen]

/-- When product ids are unique, the items-to-products merge is a map
pairing each item with its product lookup. -/
theorem items_joined1_eq_map (t : Tables)
    (hp : (t.products.map (fun pr => pr.product_id)).Nodup) :
    items_joined1 t = t.order_items.map (fun it =>
      (⟨it.order_id, it.product_id, it.freight_value, catOf t it, none⟩ :
        ItemJoined)) := by
  unfold items_joined1
  rw [leftMerge_eq_map _ _ _ _ (fun it _ =>
    filter_key_len_le (fun pr : ProductRow => pr.product_id) it.product_id _
      (fun b hb => by simpa using hb) _ hp)]
  apply List.map_congr_left
  intro it _
  simp [catOf]

/-- When product ids and translation keys are unique, items_with_product
computes item_joined_row for each item: in particular the English category
column holds the per-item substituted value itemCategoryValue. -/
theorem items_with_product_eq_map (t : Tables)
    (hp : (t.products.map (fun pr => pr.product_id)).Nodup)
    (ht : (t.product_category_translation.map
      (fun tr => tr.product_category_name)).Nodup) :
    items_with_product t = t.order_items.map (item_joined_row t) := by
  have htr : ∀ a : ItemJoined, (t.product_category_translation.filter
      (fun tr => decide ((some tr.product_category_name : Option String) =
        a.product_category_name))).length ≤ 1 := by
    intro a
    apply filter_key_len_le (fun tr : TranslationRow =>
      (some tr.product_category_name : Option String))
      a.product_category_name _ (fun b hb => by simpa using hb)
    have hmm : t.product_category_translation.map (fun tr =>
        (some tr.product_category_name : Option String)) =
        (t.product_category_translation.map
          (fun tr => tr.product_category_name)).map some := by
      rw [List.map_map]
      exact List.map_congr_left (fun x _ => rfl)
    rw [hmm]
    exact ht.map (Option.some_injective String)
  unfold items_with_product items_joined2
  rw [leftMerge_eq_map _ _ _ _ (fun a _ => htr a),
    items_joined1_eq_map t hp, List.map_map, List.map_map]
  apply List.map_congr_left
  intro it _
  simp [item_joined_row, itemCategoryValue, catOf]

/-- An order id with no item row has no items_with_product row either. -/
theorem items_with_product_filter_nil (t : Tables) (oid : String)
    (h : t.order_items.filter (fun it => decide (it.order_id = oid)) = []) :
    (items_with_product t).filter
      (fun r => decide (r.order_id = oid)) = [] := by
  rw [List.filter_eq_nil_iff] at h ⊢
  intro x hx
  unfold items_with_product at hx
  rcases List.mem_map.mp hx with ⟨y, hy, rfl⟩
  unfold items_joined2 at hy
  rcases mem_leftMerge hy with ⟨z, hz, ob2, rfl⟩
  unfold items_joined1 at hz
  rcases mem_leftMerge hz with ⟨it, hit, ob1, rfl⟩
  simpa using h it hit

/-- When customer ids are unique, the fact table carries exactly the
order-id column of the orders table, in order. -/
theorem build_map_order_id (t : Tables)
    (hc : (t.customers.map (fun c => c.customer_id)).Nodup) :
    (build_fact_orders_core t).map (fun r => r.order_id) =
      t.orders.map (fun o => o.order_id) := by
  unfold build_fact_orders_core
  rw [fact_stage6_eq_map, fact_stage5_eq_map, fact_stage4_eq_map,
    fact_stage3_eq_map, fact_stage2_eq_map, fact_stage1_eq_map t hc,
    List.map_map, List.map_map, List.map_map, List.map_map, List.map_map,
    List.map_map, List.map_map]
  apply List.map_congr_left
  intro o _
  simp only [Function.comp]
  unfold delay_on_time_step
  split <;> rfl

/-- The delay computation changes only delay_days and on_time. -/
theorem delay_step_preserves (r : FactRow) :
    (delay_on_time_step r).order_id = r.order_id ∧
    (delay_on_time_step r).customer_zip_code = r.customer_zip_code ∧
    (delay_on_time_step r).payment_type_mode = r.payment_type_mode ∧
    (delay_on_time_step r).payment_value_sum = r.payment_value_sum ∧
    (delay_on_time_step r).freight_value_sum = r.freight_value_sum ∧
    (delay_on_time_step r).product_category_mode = r.product_category_mode ∧
    (delay_on_time_step r).mean_lat = r.mean_lat ∧
    (delay_on_time_step r).mean_lng = r.mean_lng := by
  unfold delay_on_time_step
  split <;> simp

/-- Every fact row holds the aggregate lookups of its own order id and zip
code. -/
theorem mem_build_fields (t : Tables) {r : FactRow}
    (hr : r ∈ build_fact_orders_core t) :
    r.payment_type_mode = ((payment_mode t.order_payments).find?
        (fun kv => decide (kv.1 = r.order_id))).bind (fun kv => kv.2) ∧
    r.payment_value_sum = ((payment_total t.order_payments).find?
        (fun kv => decide (kv.1 = r.order_id))).map (fun kv => kv.2) ∧
    r.freight_value_sum = ((freight_agg t).find?
        (fun kv => decide (kv.1 = r.order_id))).map (fun kv => kv.2) ∧
    r.product_category_mode = ((category_agg t).find?
        (fun kv => decide (kv.1 = r.order_id))).bind (fun kv => kv.2) ∧
    r.mean_lat = ((geo_lookup t.geolocation).find? (fun g =>
        decide ((some g.1 : Option Int) = r.customer_zip_code))).bind
          (fun g => g.2.1) ∧
    r.mean_lng = ((geo_lookup t.geolocation).find? (fun g =>
        decide ((some g.1 : Option Int) = r.customer_zip_code))).bind
          (fun g => g.2.2) := by
  unfold build_fact_orders_core at hr
  rcases List.mem_map.mp hr with ⟨r6, hr6, rfl⟩
  obtain ⟨e1, e2, e3, e4, e5, e6, e7, e8⟩ := delay_step_preserves r6
  rw [e1, e2, e3, e4, e5, e6, e7, e8]
  rw [fact_stage6_eq_map] at hr6
  rcases List.mem_map.mp hr6 with ⟨r5, hr5, rfl⟩
  dsimp only
  rw [fact_stage5_eq_map] at hr5
  rcases List.mem_map.mp hr5 with ⟨r4, hr4, rfl⟩
  dsimp only
  rw [fact_stage4_eq_map] at hr4
  rcases List.mem_map.mp hr4 with ⟨r3, hr3, rfl⟩
  dsimp only
  rw [fact_stage3_eq_map] at hr3
  rcases List.mem_map.mp hr3 with ⟨r2, hr2, rfl⟩
  dsimp only
  rw [fact_stage2_eq_map] at hr2
  rcases List.mem_map.mp hr2 with ⟨r1, hr1, rfl⟩
  dsimp only
  exact ⟨rfl, rfl, rfl, rfl, rfl, rfl⟩

/-- C1 (amended): when order ids are unique in the orders table and
customer ids are unique in the customers table, the fact table has exactly
one row per orders row (so one per distinct order id, in order), order_id
is unique in the output, and a row whose order id has no payment rows, no
item rows, or no geolocation data for its zip keeps the corresponding
fields null.  (As frozen the claim held for every input set of source
tables; duplicate customer ids duplicate order rows through the left join:
see the counterexample.) -/
theorem C1_one_row_per_order (t : Tables)
    (ho : (t.orders.map (fun o => o.order_id)).Nodup)
    (hc : (t.customers.map (fun c => c.customer_id)).Nodup) :
    (build_fact_orders_core t).map (fun r => r.order_id) =
      t.orders.map (fun o => o.order_id) ∧
    ((build_fact_orders_core t).map (fun r => r.order_id)).Nodup ∧
    (∀ r ∈ build_fact_orders_core t,
      (t.order_payments.filter
        (fun pr => decide (pr.order_id = r.order_id)) = [] →
        r.payment_type_mode = none ∧ r.payment_value_sum = none) ∧
      (t.order_items.filter
        (fun it => decide (it.order_id = r.order_id)) = [] →
        r.freight_value_sum = none ∧ r.product_category_mode = none) ∧
      (r.customer_zip_code = none →
        r.mean_lat = none ∧ r.mean_lng = none) ∧
      (∀ z, r.customer_zip_code = some z →
        t.geolocation.filter
          (fun g => decide (g.geolocation_zip_code = z)) = [] →
        r.mean_lat = none ∧ r.mean_lng = none)) := by
  refine ⟨build_map_order_id t hc, ?_, ?_⟩
  · rw [build_map_order_id t hc]
    exact ho
  intro r hr
  obtain ⟨hptm, hpvs, hfvs, hpcm, hlat, hlng⟩ := mem_build_fields t hr
  refine ⟨?_, ?_, ?_, ?_⟩
  · intro hemp
    have hnone : (payment_mode t.order_payments).find?
        (fun kv => decide (kv.1 = r.order_id)) = none :=
      groupApply_find?_eq_none _ _ _ r.order_id _ (fun kv => by simp)
        (fun b hb => by
          have := List.filter_eq_nil_iff.mp hemp b hb
          simpa using this)
    have hnone2 : (payment_total t.order_payments).find?
        (fun kv => decide (kv.1 = r.order_id)) = none :=
      groupApply_find?_eq_none _ _ _ r.order_id _ (fun kv => by simp)
        (fun b hb => by
          have := List.filter_eq_nil_iff.mp hemp b hb
          simpa using this)
    rw [hnone] at hptm
    rw [hnone2] at hpvs
    exact ⟨hptm, hpvs⟩
  · intro hemp
    have hiwp := items_with_product_filter_nil t r.order_id hemp
    have hnone : (freight_agg t).find?
        (fun kv => decide (kv.1 = r.order_id)) = none :=
      groupApply_find?_eq_none _ _ _ r.order_id _ (fun kv => by simp)
        (fun b hb => by
          have := List.filter_eq_nil_iff.mp hiwp b hb
          simpa using this)
    have hnone2 : (category_agg t).find?
        (fun kv => decide (kv.1 = r.order_id)) = none :=
      groupApply_find?_eq_none _ _ _ r.order_id _ (fun kv => by simp)
        (fun b hb => by
          have := List.filter_eq_nil_iff.mp hiwp b hb
          simpa using this)
    rw [hnone] at hfvs
    rw [hnone2] at hpcm
    exact ⟨hfvs, hpcm⟩
  · intro hzip
    have hnone : (geo_lookup t.geolocation).find? (fun g =>
        decide ((some g.1 : Option Int) = r.customer_zip_code)) = none := by
      rw [List.find?_eq_none]
      intro g _
      simp [hzip]
    rw [hnone] at hlat hlng
    exact ⟨hlat, hlng⟩
  · intro z hz hemp
    have hnone : (geo_lookup t.geolocation).find? (fun g =>
        decide ((some g.1 : Option Int) = r.customer_zip_code)) = none :=
      groupApply_find?_eq_none _ _ _ z _ (fun kv => by simp [hz])
        (fun b hb => by
          have := List.filter_eq_nil_iff.mp hemp b hb
          simpa using this)
    rw [hnone] at hlat hlng
    exact ⟨hlat, hlng⟩

/-- C1 counterexample: on the concrete input exC1 the orders table has one
row with order id A (order ids are unique), but its customer id matches
two customer rows, so the fact table has two rows for that order id and
order_id is not unique in the output. -/
theorem C1_counterexample :
    (exC1.orders.map (fun o => o.order_id)).Nodup ∧
    ((build_fact_orders_core exC1).filter
      (fun r => decide (r.order_id = "A"))).length = 2 ∧
    ¬ ((build_fact_orders_core exC1).map (fun r => r.order_id)).Nodup := by
  decide

/-- C1 witness: the amended theorem applied to the concrete input exC1w,
whose single order has a unique customer and no payment, item or geo
data. -/
theorem C1_witness :
    ((exC1w.orders.map (fun o => o.order_id)).Nodup ∧
     (exC1w.customers.map (fun c => c.customer_id)).Nodup) ∧
    (build_fact_orders_core exC1w).map (fun r => r.order_id) =
      exC1w.orders.map (fun o => o.order_id) ∧
    (exC1w_row ∈ build_fact_orders_core exC1w ∧
     exC1w_row.payment_type_mode = none ∧ exC1w_row.payment_value_sum = none ∧
     exC1w_row.freight_value_sum = none ∧
     exC1w_row.product_category_mode = none) :=
  ⟨⟨by decide, by decide⟩,
   (C1_one_row_per_order exC1w (by decide) (by decide)).1,
   by decide,
   ((C1_one_row_per_order exC1w (by decide) (by decide)).2.2 exC1w_row
     (by decide)).1 (by decide) |>.1,
   ((C1_one_row_per_order exC1w (by decide) (by decide)).2.2 exC1w_row
     (by decide)).1 (by decide) |>.2,
   ((C1_one_row_per_order exC1w (by decide) (by decide)).2.2 exC1w_row
     (by decide)).2.1 (by decide) |>.1,
   ((C1_one_row_per_order exC1w (by decide) (by decide)).2.2 exC1w_row
     (by decide)).2.1 (by decide) |>.2⟩

/-- C8: when product ids and translation keys are unique (they are lookup
tables), the product_category_mode of every fact row is null when its
order has no item rows, and otherwise is _mode_or_first of the per-item
substituted category values: each item contributes its English translation
when one exists, else its original untranslated category name, the
substitution happening per item row before the mode. -/
theorem C8_category_mode_per_item (t : Tables)
    (hp : (t.products.map (fun pr => pr.product_id)).Nodup)
    (ht : (t.product_category_translation.map
      (fun tr => tr.product_category_name)).Nodup) :
    ∀ r ∈ build_fact_orders_core t,
      (t.order_items.filter
        (fun it => decide (it.order_id = r.order_id)) = [] →
        r.product_category_mode = none) ∧
      (¬ t.order_items.filter
        (fun it => decide (it.order_id = r.order_id)) = [] →
        r.product_category_mode =
          _mode_or_first ((t.order_items.filter
            (fun it => decide (it.order_id = r.order_id))).map
              (itemCategoryValue t))) := by
  intro r hr
  obtain ⟨hptm, hpvs, hfvs, hpcm, hlat, hlng⟩ := mem_build_fields t hr
  constructor
  · intro hemp
    have hiwp := items_with_product_filter_nil t r.order_id hemp
    have hnone : (category_agg t).find?
        (fun kv => decide (kv.1 = r.order_id)) = none :=
      groupApply_find?_eq_none _ _ _ r.order_id _ (fun kv => by simp)
        (fun b hb => by
          have := List.filter_eq_nil_iff.mp hiwp b hb
          simpa using this)
    rw [hnone] at hpcm
    exact hpcm
  · intro hne
    have hfilter : (items_with_product t).filter
        (fun x => decide (x.order_id = r.order_id)) =
        (t.order_items.filter
          (fun it => decide (it.order_id = r.order_id))).map
            (item_joined_row t) := by
      rw [items_with_product_eq_map t hp ht, List.filter_map]
      exact congrArg _ (List.filter_congr (fun a _ => rfl))
    have hne2 : ¬ (items_with_product t).filter
        (fun x => decide (x.order_id = r.order_id)) = [] := by
      rw [hfilter]
      simpa using hne
    have hsome : (category_agg t).find?
        (fun kv => decide (kv.1 = r.order_id)) =
        some (r.order_id, _mode_or_first (((items_with_product t).filter
          (fun x => decide (x.order_id = r.order_id))).map
            (fun x => x.product_category_name_english))) :=
      groupApply_find?_eq_some _ _ _ r.order_id _ (fun kv => by simp)
        _ (fun b => by simp) hne2
    rw [hsome] at hpcm
    rw [hpcm, hfilter, List.map_map]
    simp only [Option.some_bind]
    exact congrArg _mode_or_first (List.map_congr_left (fun a _ => rfl))

/-- C8 counterexample placeholder is not needed: the claim is confirmed. -/
theorem C8_witness :
    ((exC8.products.map (fun pr => pr.product_id)).Nodup ∧
     (exC8.product_category_translation.map
       (fun tr => tr.product_category_name)).Nodup ∧
     exC8_row ∈ build_fact_orders_core exC8 ∧
     ¬ exC8.order_items.filter
       (fun it => decide (it.order_id = exC8_row.order_id)) = []) ∧
    exC8_row.product_category_mode =
      _mode_or_first ((exC8.order_items.filter
        (fun it => decide (it.order_id = exC8_row.order_id))).map
          (itemCategoryValue exC8)) :=
  ⟨⟨by decide, by decide, by decide, by decide⟩,
   (C8_category_mode_per_item exC8 (by decide) (by decide) exC8_row
     (by decide)).2 (by decide)⟩

/-- C10: the mode helper shared by the payment-type and product-category
aggregations selects a value of maximal frequency among the non-null
values, and on a multi-way tie the value that sorts first in ascending
order (Series.mode returns the tied modes sorted and the code takes
element 0); consequently the fact-table build is a function of its input
tables. -/
theorem C10_mode_tiebreak_deterministic :
    (∀ (vals : List (Option String)) (v : String),
      _mode_or_first vals = some v →
        0 < (vals.filterMap id).count v ∧
        (∀ w, (vals.filterMap id).count w ≤ (vals.filterMap id).count v) ∧
        (∀ w, (vals.filterMap id).count w = (vals.filterMap id).count v →
          v ≤ w)) ∧
    (∀ t : Tables, build_fact_orders_core t = build_fact_orders_core t) := by
  constructor
  · intro vals v h
    exact series_mode_head (vals.filterMap id) v h
  · intro t
    rfl

/-- C10 witness: the mode theorem applied at a concrete payment-type
column (credit_card twice, voucher once, one null dropped): the selected
value has maximal and positive frequency. -/
theorem C10_witness :
    _mode_or_first [some "credit_card", none, some "credit_card",
      some "voucher"] = some "credit_card" ∧
    0 < ([some "credit_card", none, some "credit_card",
      some "voucher"].filterMap id).count "credit_card" ∧
    ([some "credit_card", none, some "credit_card",
      some "voucher"].filterMap id).count "voucher" ≤
      ([some "credit_card", none, some "credit_card",
        some "voucher"].filterMap id).count "credit_card" :=
  ⟨by decide,
   (C10_mode_tiebreak_deterministic.1 [some "credit_card", none,
     some "credit_card", some "voucher"] "credit_card" (by decide)).1,
   (C10_mode_tiebreak_deterministic.1 [some "credit_card", none,
     some "credit_card", some "voucher"] "credit_card"
     (by decide)).2.1 "voucher"⟩

/-- Counting true values after dropping nulls equals counting rows whose
on_time cell is literally some true. -/
theorem count_true_filterMap_on_time (l : List FactRow) :
    ((l.filterMap (fun r => r.on_time)).filter (fun b => b)).length =
      (l.filter (fun r => decide (r.on_time = some true))).length := by
  induction l with
  | nil => rfl
  | cons a l ih =>
    rcases ha : a.on_time with _ | b
    · simp [List.filterMap_cons, List.filter_cons, ha, ih]
    · cases b <;> simp [List.filterMap_cons, List.filter_cons, ha, ih]

/-- C4 (amended): compute_kpis counts on-time orders over delivered rows
with nulls excluded from the numerator only; the rate divides that count by
the number of all delivered rows, nulls included in the denominator.  The
empty input returns the all-zero defaults and an all-null input yields
rate and mean 0 with no division-by-zero fault.  (As frozen the claim
said nulls are excluded from the denominator as well: see the
counterexample.) -/
theorem C4_kpis_rate_denominator (df : List FactRow) :
    compute_kpis [] = ⟨0, 0, 0, 0, 0, 0, 0⟩ ∧
    (compute_kpis df).on_time_count =
      ((df.filter (fun r => decide (r.order_status = "delivered"))).filter
        (fun r => decide (r.on_time = some true))).length ∧
    (compute_kpis df).on_time_rate =
      (if (df.filter
          (fun r => decide (r.order_status = "delivered"))).length = 0
       then 0
       else (((df.filter
          (fun r => decide (r.order_status = "delivered"))).filter
            (fun r => decide (r.on_time = some true))).length : ℚ) /
         ((df.filter
            (fun r => decide (r.order_status = "delivered"))).length : ℚ)) ∧
    ((∀ r ∈ df, r.on_time = none ∧ r.delay_days = none) →
      (compute_kpis df).on_time_rate = 0 ∧
      (compute_kpis df).avg_delay_days = 0) := by
  refine ⟨rfl, ?_, ?_, ?_⟩
  · by_cases hdf : df = []
    · simp [hdf, compute_kpis]
    · unfold compute_kpis
      rw [if_neg hdf]
      dsimp only
      by_cases hdel : 0 <
          (df.filter (fun r => decide (r.order_status = "delivered"))).length
      · rw [if_pos hdel]
        exact count_true_filterMap_on_time _
      · rw [if_neg hdel]
        have hnil : (df.filter
            (fun r => decide (r.order_status = "delivered"))) = [] :=
          List.length_eq_zero.mp (Nat.eq_zero_of_not_pos hdel)
        simp [hnil]
  · by_cases hdf : df = []
    · simp [hdf, compute_kpis]
    · unfold compute_kpis
      rw [if_neg hdf]
      dsimp only
      by_cases hdel : 0 <
          (df.filter (fun r => decide (r.order_status = "delivered"))).length
      · rw [if_pos hdel, if_neg (Nat.pos_iff_ne_zero.mp hdel)]
        dsimp only
        rw [count_true_filterMap_on_time]
      · rw [if_neg hdel, if_pos (Nat.eq_zero_of_not_pos hdel)]
  · intro hnull
    by_cases hdf : df = []
    · simp [hdf, compute_kpis]
    · unfold compute_kpis
      rw [if_neg hdf]
      dsimp only
      have hot : (df.filter
          (fun r => decide (r.order_status = "delivered"))).filterMap
            (fun r => r.on_time) = [] := by
        rw [List.filterMap_eq_nil_iff]
        intro r hr
        exact (hnull r (List.mem_of_mem_filter hr)).1
      by_cases hdel : 0 <
          (df.filter (fun r => decide (r.order_status = "delivered"))).length
      · rw [if_pos hdel]
        constructor
        · dsimp only
          rw [hot]
          simp
        · dsimp only
          rw [if_neg (by
            simp
            intro a ha _ z
            rw [(hnull a ha).2]
            simp)]
      · rw [if_neg hdel]
        exact ⟨rfl, rfl⟩

/-- C4 counterexample: on the concrete frame exDf4 (two delivered rows,
one on time, one null), compute_kpis returns rate 1/2; the claimed
null-free denominator holds one delivered row, which would give rate 1. -/
theorem C4_counterexample :
    (compute_kpis exDf4).on_time_rate = 1/2 ∧
    ((exDf4.filter (fun r => decide (r.order_status = "delivered"))).filter
      (fun r => r.on_time.isSome)).length = 1 ∧
    ¬ ((1 : ℚ)/2 = 1/1) :=
  ⟨by simp [compute_kpis, exDf4, base_fact], by decide, by norm_num⟩

/-- C4 witness: the amended theorem applied to a concrete one-row all-null
frame, discharging the all-null hypothesis. -/
theorem C4_witness :
    (∀ r ∈ [base_fact], r.on_time = none ∧ r.delay_days = none) ∧
    ((compute_kpis [base_fact]).on_time_rate = 0 ∧
     (compute_kpis [base_fact]).avg_delay_days = 0) :=
  ⟨by decide, (C4_kpis_rate_denominator [base_fact]).2.2.2 (by decide)⟩

/-- Each date-filter configuration selects a sublist. -/
theorem date_filter_sublist (dr : Option (Option Int × Option Int))
    (l : List FactRow) : (date_filter dr l).Sublist l := by
  match dr with
  | none => exact List.Sublist.refl l
  | some (none, none) => exact List.Sublist.refl l
  | some (some sd, none) => exact List.filter_sublist l
  | some (none, some ed) => exact List.filter_sublist l
  | some (some sd, some ed) =>
    exact (List.filter_sublist _).trans (List.filter_sublist l)

/-- The date filter is monotone with respect to sublists. -/
theorem date_filter_mono (dr : Option (Option Int × Option Int))
    {l1 l2 : List FactRow} (h : l1.Sublist l2) :
    (date_filter dr l1).Sublist (date_filter dr l2) := by
  match dr with
  | none => exact h
  | some (none, none) => exact h
  | some (some sd, none) => exact h.filter _
  | some (none, some ed) => exact h.filter _
  | some (some sd, some ed) => exact (h.filter _).filter _

/-- Adding a lower date bound selects a sublist of the unbounded result. -/
theorem date_filter_lower_sublist (sd : Int) (e : Option Int)
    (l : List FactRow) :
    (date_filter (some (some sd, e)) l).Sublist
      (date_filter (some (none, e)) l) := by
  match e with
  | none => exact List.filter_sublist l
  | some ed => exact (List.filter_sublist l).filter _

/-- Adding an upper date bound selects a sublist of the unbounded result. -/
theorem date_filter_upper_sublist (s : Option Int) (ed : Int)
    (l : List FactRow) :
    (date_filter (some (s, some ed)) l).Sublist
      (date_filter (some (s, none)) l) := by
  match s with
  | none => exact List.filter_sublist l
  | some sd => exact List.filter_sublist _

/-- Each isin stage selects a sublist. -/
theorem isin_filter_sublist (v : Option (List String))
    (field : FactRow → Option String) (l : List FactRow) :
    (isin_filter v field l).Sublist l := by
  match v with
  | none => exact List.Sublist.refl l
  | some vs =>
    dsimp only [isin_filter]
    by_cases hvs : vs = []
    · rw [if_pos hvs]
    · rw [if_neg hvs]
      exact List.filter_sublist l

/-- Each isin stage is monotone with respect to sublists. -/
theorem isin_filter_mono (v : Option (List String))
    (field : FactRow → Option String) {l1 l2 : List FactRow}
    (h : l1.Sublist l2) :
    (isin_filter v field l1).Sublist (isin_filter v field l2) := by
  match v with
  | none => exact h
  | some vs =>
    dsimp only [isin_filter]
    by_cases hvs : vs = []
    · rw [if_pos hvs, if_pos hvs]
      exact h
    · rw [if_neg hvs, if_neg hvs]
      exact h.filter _

/-- The delivered-only stage selects a sublist. -/
theorem delivered_filter_sublist (b : Bool) (l : List FactRow) :
    (delivered_filter b l).Sublist l := by
  cases b
  · exact List.Sublist.refl l
  · exact List.filter_sublist l

/-- The delivered-only stage is monotone with respect to sublists. -/
theorem delivered_filter_mono (b : Bool) {l1 l2 : List FactRow}
    (h : l1.Sublist l2) :
    (delivered_filter b l1).Sublist (delivered_filter b l2) := by
  cases b
  · exact h
  · exact h.filter _

/-- C5 (amended): apply_filters is monotonic in every filter dimension:
activating the state, category or payment-type filter, setting the
delivered-only flag, adding a lower or upper date bound, or activating the
date range never increases the row count.  With no active filter the call
returns the input rows in order with every field unchanged except
order_purchase_timestamp, which is replaced by its pd.to_datetime parse
(null when unparseable).  (As frozen the claim said the zero-filter call is
the identity row-for-row and field-for-field: the timestamp column is
re-parsed even then, see the counterexample.) -/
theorem C5_filters_monotonic (parse : String → Option Int)
    (df : List FactRow) :
    (apply_filters parse df ⟨none, none, none, none, false⟩ =
      parse_ts_column parse df) ∧
    (∀ dr ss cats pays b,
      (apply_filters parse df ⟨dr, some ss, cats, pays, b⟩).length ≤
      (apply_filters parse df ⟨dr, none, cats, pays, b⟩).length) ∧
    (∀ dr st cs pays b,
      (apply_filters parse df ⟨dr, st, some cs, pays, b⟩).length ≤
      (apply_filters parse df ⟨dr, st, none, pays, b⟩).length) ∧
    (∀ dr st cats ps b,
      (apply_filters parse df ⟨dr, st, cats, some ps, b⟩).length ≤
      (apply_filters parse df ⟨dr, st, cats, none, b⟩).length) ∧
    (∀ dr st cats pays,
      (apply_filters parse df ⟨dr, st, cats, pays, true⟩).length ≤
      (apply_filters parse df ⟨dr, st, cats, pays, false⟩).length) ∧
    (∀ sd e st cats pays b,
      (apply_filters parse df ⟨some (some sd, e), st, cats, pays, b⟩).length ≤
      (apply_filters parse df ⟨some (none, e), st, cats, pays, b⟩).length) ∧
    (∀ s ed st cats pays b,
      (apply_filters parse df ⟨some (s, some ed), st, cats, pays, b⟩).length ≤
      (apply_filters parse df ⟨some (s, none), st, cats, pays, b⟩).length) ∧
    (∀ dr st cats pays b,
      (apply_filters parse df ⟨some dr, st, cats, pays, b⟩).length ≤
      (apply_filters parse df ⟨none, st, cats, pays, b⟩).length) := by
  by_cases hdf : df = []
  · subst hdf
    refine ⟨rfl, ?_, ?_, ?_, ?_, ?_, ?_, ?_⟩ <;> intros <;> simp [apply_filters]
  refine ⟨?_, ?_, ?_, ?_, ?_, ?_, ?_, ?_⟩
  · unfold apply_filters
    rw [if_neg hdf]
    rfl
  · intro dr ss cats pays b
    unfold apply_filters
    rw [if_neg hdf, if_neg hdf]
    exact (delivered_filter_mono b (isin_filter_mono pays _
      (isin_filter_mono cats _
        (isin_filter_sublist (some ss) _ _)))).length_le
  · intro dr st cs pays b
    unfold apply_filters
    rw [if_neg hdf, if_neg hdf]
    exact (delivered_filter_mono b (isin_filter_mono pays _
      (isin_filter_sublist (some cs) _ _))).length_le
  · intro dr st cats ps b
    unfold apply_filters
    rw [if_neg hdf, if_neg hdf]
    exact (delivered_filter_mono b
      (isin_filter_sublist (some ps) _ _)).length_le
  · intro dr st cats pays
    unfold apply_filters
    rw [if_neg hdf, if_neg hdf]
    exact (delivered_filter_sublist true _).length_le
  · intro sd e st cats pays b
    unfold apply_filters
    rw [if_neg hdf, if_neg hdf]
    exact (delivered_filter_mono b (isin_filter_mono pays _
      (isin_filter_mono cats _ (isin_filter_mono st _
        (date_filter_lower_sublist sd e _))))).length_le
  · intro s ed st cats pays b
    unfold apply_filters
    rw [if_neg hdf, if_neg hdf]
    exact (delivered_filter_mono b (isin_filter_mono pays _
      (isin_filter_mono cats _ (isin_filter_mono st _
        (date_filter_upper_sublist s ed _))))).length_le
  · intro dr st cats pays b
    unfold apply_filters
    rw [if_neg hdf, if_neg hdf]
    exact (delivered_filter_mono b (isin_filter_mono pays _
      (isin_filter_mono cats _ (isin_filter_mono st _
        (date_filter_sublist (some dr) _))))).length_le

/-- C5 counterexample: with no active filter, the concrete frame exDf5
(one row whose purchase timestamp is the unparseable string garbage) comes
back changed: the timestamp cell is nulled by the pd.to_datetime pass, so
the zero-filter call is not the identity field-for-field. -/
theorem C5_counterexample :
    ¬ apply_filters parse_none exDf5 ⟨none, none, none, none, false⟩ =
      exDf5 := by decide

/-- C6 (amended): group_geo on an empty input returns zero rows with the
eight documented columns; so does a non-empty input whose every row has a
null coordinate; but an input lacking a required geo column returns zero
rows with only the four columns customer_state, mean_lat, mean_lng,
order_count, not the documented eight.  In none of these cases does it
raise.  (As frozen the claim promised the eight documented columns in the
missing-column case as well: see the counterexample.) -/
theorem C6_group_geo_degenerate (columns : List String)
    (df : List FactRow) :
    group_geo columns [] = ⟨geo_result_cols, []⟩ ∧
    (¬ ("customer_state" ∈ columns ∧ "mean_lat" ∈ columns ∧
        "mean_lng" ∈ columns) → ¬ df = [] →
      group_geo columns df = ⟨geo_missing_cols, []⟩) ∧
    ((∀ r ∈ df, r.mean_lat = none ∨ r.mean_lng = none) →
      ("customer_state" ∈ columns ∧ "mean_lat" ∈ columns ∧
        "mean_lng" ∈ columns) →
      group_geo columns df = ⟨geo_result_cols, []⟩) := by
  refine ⟨rfl, ?_, ?_⟩
  · intro hcols hdf
    unfold group_geo
    rw [if_neg hdf, if_neg hcols]
  · intro hnull hcols
    by_cases hdf : df = []
    · subst hdf
      rfl
    · unfold group_geo
      rw [if_neg hdf, if_pos hcols]
      have hclean : df.filter
          (fun r => r.mean_lat.isSome && r.mean_lng.isSome) = [] := by
        rw [List.filter_eq_nil_iff]
        intro r hr
        rcases hnull r hr with h | h <;> simp [h]
      rw [if_pos hclean]

/-- C6 counterexample: a non-empty frame lacking the mean_lat column comes
back with the four-column shape, not the eight documented columns. -/
theorem C6_counterexample :
    (group_geo ["customer_state", "mean_lng"] [base_fact]).rows = [] ∧
    ¬ (group_geo ["customer_state", "mean_lng"] [base_fact]).cols =
      geo_result_cols := by decide

/-- C6 witness: the amended theorem applied to concrete inputs, both for
the missing-column case and for the all-null-coordinates case. -/
theorem C6_witness :
    (¬ ("customer_state" ∈ ["customer_state", "mean_lng"] ∧
        "mean_lat" ∈ ["customer_state", "mean_lng"] ∧
        "mean_lng" ∈ ["customer_state", "mean_lng"]) ∧
     ¬ ([base_fact] : List FactRow) = []) ∧
    group_geo ["customer_state", "mean_lng"] [base_fact] =
      ⟨geo_missing_cols, []⟩ ∧
    ((∀ r ∈ [base_fact], r.mean_lat = none ∨ r.mean_lng = none) ∧
     group_geo geo_result_cols [base_fact] = ⟨geo_result_cols, []⟩) :=
  ⟨⟨by decide, by decide⟩,
   (C6_group_geo_degenerate ["customer_state", "mean_lng"] [base_fact]).2.1
     (by decide) (by decide),
   by decide,
   (C6_group_geo_degenerate geo_result_cols [base_fact]).2.2
     (by decide) (by decide)⟩

/-- C7: with the cache flag set, get_fact_orders returns an existing cache
artifact unchanged, whatever the raw inputs hold (no staleness check); with
no artifact, or with the flag off, it builds from raw, persists the result,
and returns it (a load failure propagates and persists nothing). -/
theorem C7_cache_semantics (raw_dir : RawDir) (processed_dir : ProcessedDir)
    (df : List FactRow) :
    (processed_dir.fact_orders_parquet = some df →
      get_fact_orders raw_dir processed_dir true =
        Except.ok (df, processed_dir)) ∧
    (processed_dir.fact_orders_parquet = none →
      get_fact_orders raw_dir processed_dir true =
        (build_fact_orders raw_dir).bind
          (fun d => Except.ok (d, ⟨some d⟩))) ∧
    (get_fact_orders raw_dir processed_dir false =
      (build_fact_orders raw_dir).bind
        (fun d => Except.ok (d, ⟨some d⟩))) := by
  refine ⟨?_, ?_, ?_⟩
  · intro h
    unfold get_fact_orders
    rw [h]
  · intro h
    unfold get_fact_orders
    rw [h]
    rfl
  · unfold get_fact_orders
    rcases processed_dir with ⟨_ | p⟩ <;> rfl

/-- C7 witness: the cache semantics applied to a concrete stale cache (its
content differs from any rebuild) and to a concrete empty processed
directory. -/
theorem C7_witness :
    cache_with_stale.fact_orders_parquet =
      some [{ base_fact with order_id := "cached" }] ∧
    get_fact_orders raw_all_present cache_with_stale true =
      Except.ok ([{ base_fact with order_id := "cached" }],
        cache_with_stale) ∧
    ((⟨none⟩ : ProcessedDir).fact_orders_parquet = none ∧
     get_fact_orders raw_all_present ⟨none⟩ true =
       (build_fact_orders raw_all_present).bind
         (fun d => Except.ok (d, ⟨some d⟩))) :=
  ⟨by decide,
   (C7_cache_semantics raw_all_present cache_with_stale
     [{ base_fact with order_id := "cached" }]).1 (by decide),
   by decide,
   (C7_cache_semantics raw_all_present ⟨none⟩ []).2.1 (by decide)⟩

/-- A successful build implies every required source file was present. -/
theorem build_ok_of_sources (raw_dir : RawDir) (t : List FactRow)
    (h : build_fact_orders raw_dir = Except.ok t) :
    raw_dir.orders.isSome ∧ raw_dir.customers.isSome ∧
    raw_dir.order_items.isSome ∧ raw_dir.order_payments.isSome ∧
    raw_dir.products.isSome ∧
    raw_dir.product_category_translation.isSome ∧
    raw_dir.geolocation.isSome := by
  rcases raw_dir with ⟨o, c, oi, op, p, tr, g⟩
  unfold build_fact_orders load_required_from_raw load_csv_from_raw at h
  cases o with
  | none => exact Except.noConfusion h
  | some o2 =>
  cases c with
  | none => exact Except.noConfusion h
  | some c2 =>
  cases oi with
  | none => exact Except.noConfusion h
  | some oi2 =>
  cases op with
  | none => exact Except.noConfusion h
  | some op2 =>
  cases p with
  | none => exact Except.noConfusion h
  | some p2 =>
  cases tr with
  | none => exact Except.noConfusion h
  | some tr2 =>
  cases g with
  | none => exact Except.noConfusion h
  | some g2 => simp

/-- C9: when any of the seven required source CSV files is absent from the
raw directory, build_fact_orders surfaces an error to the caller rather
than returning a defaulted or partial table. -/
theorem C9_missing_source_errors (raw_dir : RawDir)
    (h : raw_dir.orders = none ∨ raw_dir.customers = none ∨
      raw_dir.order_items = none ∨ raw_dir.order_payments = none ∨
      raw_dir.products = none ∨
      raw_dir.product_category_translation = none ∨
      raw_dir.geolocation = none) :
    ∃ e, build_fact_orders raw_dir = Except.error e := by
  cases hb : build_fact_orders raw_dir with
  | error e => exact ⟨e, rfl⟩
  | ok t =>
    exfalso
    obtain ⟨h1, h2, h3, h4, h5, h6, h7⟩ := build_ok_of_sources raw_dir t hb
    rcases h with h | h | h | h | h | h | h <;> simp_all

/-- C9 witness: a concrete raw directory missing only the geolocation CSV
makes the build fail with an error. -/
theorem C9_witness :
    (raw_missing_geo.orders = none ∨ raw_missing_geo.customers = none ∨
      raw_missing_geo.order_items = none ∨
      raw_missing_geo.order_payments = none ∨
      raw_missing_geo.products = none ∨
      raw_missing_geo.product_category_translation = none ∨
      raw_missing_geo.geolocation = none) ∧
    (∃ e, build_fact_orders raw_missing_geo = Except.error e) :=
  ⟨by decide, C9_missing_source_errors raw_missing_geo (by decide)⟩
